import Mathlib

/-!
Verification development for the Bibliotech catalog ingestion and
classification pipeline.

The JavaScript sources (`populate-wikibooks.js`, the Gutenberg populate
script, `improve-dewey-classifications.js`) are shallowly embedded below.
JavaScript strings are modelled as Lean `String` (sequences of characters;
the UTF-16 unit/character distinction is immaterial for all inputs
considered here).  JavaScript string primitives (`includes`, `toLowerCase`
on ASCII, `trim`, `split`, `parseInt`, `encodeURIComponent`) are modelled
by the executable functions in the `Js` namespace.  The Supabase store is
modelled as an explicit record store (`Store`) threaded through the
stateful operations; store failures (missing column, uniqueness violation,
arbitrary rejection) surface as error-message strings, exactly as the
scripts observe them through `error.message`.
-/

namespace Js

/-- One character of an ASCII-lowercase conversion: JavaScript
`toLowerCase` restricted to ASCII (all inputs of interest are ASCII). -/
def toLowerChar (c : Char) : Char :=
  if 65 ≤ c.toNat ∧ c.toNat ≤ 90 then Char.ofNat (c.toNat + 32) else c

/-- JavaScript `String.prototype.toLowerCase` (ASCII fragment). -/
def toLowerS (s : String) : String :=
  String.mk (s.data.map toLowerChar)

/-- `sub` is a prefix of `l` (boolean, executable). -/
def isPrefixL : List Char → List Char → Bool
  | [], _ => true
  | _ :: _, [] => false
  | a :: as, b :: bs => decide (a = b) && isPrefixL as bs

/-- `sub` occurs as a contiguous sublist of the second argument. -/
def containsL (sub : List Char) : List Char → Bool
  | [] => isPrefixL sub []
  | c :: t => isPrefixL sub (c :: t) || containsL sub t

/-- JavaScript `hay.includes(sub)`. -/
def includes (hay sub : String) : Bool :=
  containsL sub.data hay.data

/-- The whitespace characters recognised by the JavaScript primitives used
here (`trim`, `\s`, `parseInt` leading-space skipping): ASCII whitespace
plus no-break space.  All inputs of interest contain only these. -/
def wsChar (c : Char) : Bool :=
  decide (c.toNat = 9 ∨ c.toNat = 10 ∨ c.toNat = 11 ∨ c.toNat = 12 ∨
          c.toNat = 13 ∨ c.toNat = 32 ∨ c.toNat = 160)

/-- JavaScript `String.prototype.trim`. -/
def trim (s : String) : String :=
  String.mk (((s.data.dropWhile wsChar).reverse.dropWhile wsChar).reverse)

/-- JavaScript `\d`, i.e. the ASCII digits. -/
def isDigitChar (c : Char) : Bool :=
  decide (48 ≤ c.toNat ∧ c.toNat ≤ 57)

/-- Numeric value of an ASCII digit. -/
def digitVal (c : Char) : Nat := c.toNat - 48

/-- Value of a block of ASCII decimal digits, most significant first. -/
def decValue (l : List Char) : Nat :=
  l.foldl (fun a c => a * 10 + digitVal c) 0

/-- Does the character list start with the `parseInt` hex marker `0x`/`0X`? -/
def hexMarker : List Char → Bool
  | c0 :: c1 :: _ =>
      decide (c0.toNat = 48) && (decide (c1.toNat = 120) || decide (c1.toNat = 88))
  | _ => false

/-- JavaScript `parseInt` on a sign-free string: leading decimal digits
(or a `0x`/`0X`-prefixed block of hex digits); `none` models `NaN`. -/
def parseIntNatPart (l : List Char) : Option Nat :=
  if hexMarker l then
    let hs := (l.drop 2).takeWhile (fun c => isDigitChar c ||
      decide ((65 ≤ c.toNat ∧ c.toNat ≤ 70) ∨ (97 ≤ c.toNat ∧ c.toNat ≤ 102)))
    if hs.isEmpty then none
    else some (hs.foldl (fun a c =>
      a * 16 + (if isDigitChar c then digitVal c
                else if c.toNat ≤ 70 then c.toNat - 55 else c.toNat - 87)) 0)
  else
    let ds := l.takeWhile isDigitChar
    if ds.isEmpty then none else some (decValue ds)

/-- JavaScript `parseInt(s)` (radix auto-detection, leading whitespace,
optional sign); `none` models `NaN`. -/
def parseInt (s : String) : Option Int :=
  match s.data.dropWhile wsChar with
  | [] => none
  | c :: rest =>
      if c.toNat = 45 then (parseIntNatPart rest).map (fun n => -(n : Int))
      else if c.toNat = 43 then (parseIntNatPart rest).map (fun n => (n : Int))
      else (parseIntNatPart (c :: rest)).map (fun n => (n : Int))

/-- Split a character list at every character satisfying `p`
(JavaScript `split` against a single-character class). -/
def splitOnPredL (p : Char → Bool) : List Char → List (List Char)
  | [] => [[]]
  | c :: t =>
      let r := splitOnPredL p t
      if p c then [] :: r
      else match r with
        | h :: t2 => (c :: h) :: t2
        | [] => [[c]]

/-- JavaScript `s.split(d)` for a single-character separator `d`. -/
def splitChar (s : String) (d : Char) : List String :=
  (splitOnPredL (fun c => decide (c = d)) s.data).map String.mk

/-- JavaScript `s.split(/\s+/)` followed by uses that ignore empty
tokens: splitting at every whitespace character yields the same non-empty
tokens as splitting at whitespace runs. -/
def splitWs (s : String) : List String :=
  (splitOnPredL wsChar s.data).map String.mk

/-- UTF-8 bytes of a character (as natural numbers below 256). -/
def utf8BytesOfChar (c : Char) : List Nat :=
  let n := c.toNat
  if n < 128 then [n]
  else if n < 2048 then [192 + n / 64, 128 + n % 64]
  else if n < 65536 then [224 + n / 4096, 128 + (n / 64) % 64, 128 + n % 64]
  else [240 + n / 262144, 128 + (n / 4096) % 64, 128 + (n / 64) % 64, 128 + n % 64]

/-- Uppercase hexadecimal digit. -/
def hexDigitChar (n : Nat) : Char :=
  if n < 10 then Char.ofNat (48 + n) else Char.ofNat (55 + n)

/-- Percent-encoding of one byte, `%XX` with uppercase hex. -/
def percentByte (b : Nat) : List Char :=
  [Char.ofNat 37, hexDigitChar (b / 16), hexDigitChar (b % 16)]

/-- The characters `encodeURIComponent` leaves unescaped:
`A-Z a-z 0-9 - _ . ! ~ * ' ( )`. -/
def isUnreservedChar (c : Char) : Bool :=
  let n := c.toNat
  decide ((65 ≤ n ∧ n ≤ 90) ∨ (97 ≤ n ∧ n ≤ 122) ∨ (48 ≤ n ∧ n ≤ 57) ∨
    n = 45 ∨ n = 95 ∨ n = 46 ∨ n = 33 ∨ n = 126 ∨ n = 42 ∨ n = 39 ∨ n = 40 ∨ n = 41)

/-- JavaScript `encodeURIComponent`. -/
def encodeURIComponent (s : String) : String :=
  String.mk (s.data.flatMap (fun c =>
    if isUnreservedChar c then [c] else (utf8BytesOfChar c).flatMap percentByte))

end Js

namespace PopulateWikibooks

/-- `DEWEY_MAP` of `populate-wikibooks.js`: subject keyword to Dewey code,
in source (insertion) order. -/
def DEWEY_MAP : List (String × String) :=
  [("computer", "000"), ("programming", "000"), ("software", "000"),
   ("information", "000"), ("philosophy", "100"), ("psychology", "100"),
   ("religion", "200"), ("social", "300"), ("sociology", "300"),
   ("economics", "300"), ("politics", "300"), ("language", "400"),
   ("linguistics", "400"), ("science", "500"), ("mathematics", "500"),
   ("physics", "500"), ("chemistry", "500"), ("biology", "500"),
   ("technology", "600"), ("engineering", "600"), ("medicine", "600"),
   ("arts", "700"), ("music", "780"), ("literature", "800"),
   ("poetry", "800"), ("history", "900"), ("geography", "910")]

/-- `generateWikibookSourceId` of `populate-wikibooks.js`. -/
def generateWikibookSourceId (title : String) : String :=
  Js.encodeURIComponent title

/-- `generateBookUri` of `populate-wikibooks.js`. -/
def generateBookUri (source identifier : String) : String :=
  source ++ "://" ++ identifier

/-- `getDeweyDecimal` of `populate-wikibooks.js`: first keyword of
`DEWEY_MAP` occurring in the lowercased `title ++ " " ++ extract`,
defaulting to `"000"`. -/
def getDeweyDecimal (title extract : String) : String :=
  let text := Js.toLowerS (title ++ " " ++ extract)
  match DEWEY_MAP.find? (fun kd => Js.includes text kd.1) with
  | some kd => kd.2
  | none => "000"

/-- A `faculty` row as consumed by `matchFacultyToBook`
(`select('id, name, department')`; `name` and `department` nullable). -/
structure Faculty where
  id : Nat
  name : Option String
  department : Option String
deriving DecidableEq, Repr

/-- The `subjectKeywords` list of `matchFacultyToBook`, in source order. -/
def subjectKeywords : List String :=
  ["computer", "programming", "software", "code", "algorithm", "data", "database",
   "mathematics", "math", "calculus", "algebra", "statistics",
   "physics", "chemistry", "biology", "science",
   "history", "historical", "ancient", "medieval",
   "philosophy", "ethics", "logic", "metaphysics",
   "literature", "poetry", "novel", "writing",
   "language", "linguistics", "grammar", "translation",
   "art", "music", "design", "creative",
   "economics", "business", "finance", "marketing",
   "psychology", "mental", "behavior", "cognitive",
   "education", "teaching", "learning", "pedagogy"]

/-- The combined lowercased text scored by `matchFacultyToBook`:
`(title + ' ' + (extract || '') + ' ' + (subject || '')).toLowerCase()`. -/
def facultyText (title extract : String) (subject : Option String) : String :=
  Js.toLowerS (title ++ " " ++ extract ++ " " ++ subject.getD "")

/-- The per-member score of the `matchFacultyToBook` loop body. -/
def facultyScore (text titleLower : String) (m : Faculty) : Nat :=
  let department := Js.toLowerS (m.department.getD "")
  let name := Js.toLowerS (m.name.getD "")
  let deptScore :=
    if department ≠ "" then
      (if Js.includes text department then 10 else 0) +
        5 * (subjectKeywords.countP
              (fun k => Js.includes department k && Js.includes text k))
    else 0
  let nameScore :=
    2 * (((Js.splitWs name).filter (fun w => 3 < w.length)).countP
          (fun w => Js.includes text w))
  let titleScore :=
    if department ≠ "" ∧
        Js.includes titleLower (((Js.splitChar department (Char.ofNat 32)).headD ""))
      then 3 else 0
  deptScore + nameScore + titleScore

/-- The best-match fold of `matchFacultyToBook`: carries
`(bestMatch, bestScore)`, updating only on a strictly greater score. -/
def matchLoop (text titleLower : String) :
    List Faculty → Option Nat × Nat → Option Nat × Nat
  | [], acc => acc
  | m :: rest, (bestMatch, bestScore) =>
      let score := facultyScore text titleLower m
      if bestScore < score then matchLoop text titleLower rest (some m.id, score)
      else matchLoop text titleLower rest (bestMatch, bestScore)

/-- The pure scoring core of `matchFacultyToBook` (everything after the
faculty query): score every member, return the best match if its score
reaches the threshold 5. -/
def matchFacultyCore (faculty : List Faculty) (title extract : String)
    (subject : Option String) : Option Nat :=
  let text := facultyText title extract subject
  let titleLower := Js.toLowerS title
  let best := matchLoop text titleLower faculty (none, 0)
  if 5 ≤ best.2 then best.1 else none

/-- The `skipPatterns` list of `isLikelyBook`, in source order. -/
def skipPatterns : List String :=
  ["category:", "template:", "help:", "user:", "file:", "mediawiki:",
   "disambiguation", "redirect", "stub", "book:", "module:"]

/-- `isLikelyBook` of `populate-wikibooks.js`: reject titles containing an
administrative marker (case-insensitively) or shorter than 3 characters. -/
def isLikelyBook (pageTitle : String) : Bool :=
  let title := Js.toLowerS pageTitle
  if skipPatterns.any (fun pattern => Js.includes title pattern) then false
  else if pageTitle.length < 3 then false
  else true

/-- A row of the `books` table, with the columns `insertWikibook` writes.
`book_uri` is `none` either when the row was inserted without the column
or when the store predates the `book_uri` migration. -/
structure BookRow where
  book_uri : Option String
  source : String
  source_id : String
  gutenberg_id : Option Int
  title : String
  author : String
  dewey_decimal : String
  language : String
  subject : Option String
  publisher : String
  publication_date : Option String
  description : String
  cover_url : Option String
  faculty_id : Option Nat
deriving DecidableEq, Repr

/-- The Supabase store as the scripts observe it: the `books` rows, the
`faculty` rows, whether the `book_uri` column exists (schema drift), a
fault knob making every insert fail with a given message (an arbitrary
store rejection), and a fault knob failing the faculty query. -/
structure Store where
  rows : List BookRow
  hasBookUriCol : Bool
  insertFault : Option String
  faculty : List Faculty
  facultyError : Bool
deriving DecidableEq, Repr

/-- Lookup `.eq('book_uri', uri).maybeSingle()`.  When the column is
absent the query errors and the script, destructuring only `data`,
observes `undefined` - modelled as `none`. -/
def findByUri (st : Store) (uri : String) : Option BookRow :=
  if st.hasBookUriCol then
    st.rows.find? (fun r => decide (r.book_uri = some uri))
  else none

/-- Fallback lookup `.eq('source', source).eq('source_id', sourceId)`. -/
def findBySourceId (st : Store) (source sourceId : String) : Option BookRow :=
  st.rows.find? (fun r => decide (r.source = source ∧ r.source_id = sourceId))

/-- Store uniqueness: `book_uri` is `UNIQUE` and `(source, source_id)` is
`UNIQUE` (the two migrations).  `NULL` uri values never conflict. -/
def conflictsWith (row r : BookRow) : Bool :=
  (match row.book_uri, r.book_uri with
   | some u, some v => decide (u = v)
   | _, _ => false) ||
  decide (r.source = row.source ∧ r.source_id = row.source_id)

/-- One `insert(...).select().single()` against rows `visible`, returning
either the error message the script would read from `error.message` or
the stored row.  A `book_uri`-bearing insert against a store lacking the
column fails with a message naming `book_uri`; a uniqueness conflict
fails with a duplicate-key message; an `insertFault` store rejects every
insert with its message. -/
def attemptInsert (visible : List BookRow) (fault : Option String)
    (hasCol : Bool) (row : BookRow) : Except String (List BookRow × BookRow) :=
  match fault with
  | some m => Except.error m
  | none =>
      if row.book_uri.isSome && !hasCol then
        Except.error "Could not find the book_uri column of books in the schema cache"
      else if visible.any (conflictsWith row) then
        Except.error "duplicate key value violates unique constraint"
      else
        Except.ok (visible ++ [row], row)

/-- `matchFacultyToBook` of `populate-wikibooks.js`: query the faculty
table with `limit(100)`; on error or no rows return `null`; otherwise run
the scoring loop. -/
def matchFacultyToBook (st : Store) (title extract : String)
    (subject : Option String) : Option Nat :=
  if st.facultyError then none
  else
    let faculty := st.faculty.take 100
    if faculty.isEmpty then none
    else matchFacultyCore faculty title extract subject

/-- The page details `fetchWikibookDetails` resolves (extract defaulted
to `''` at construction). -/
structure Details where
  title : String
  extract : String
  fullurl : String
deriving DecidableEq, Repr

/-- A raw page from the Wikibooks listing. -/
structure Page where
  title : String
deriving DecidableEq, Repr

/-- The `bookData` record `insertWikibook` builds (with `book_uri` when
`withUri` is set, mirroring `bookDataWithUri`). -/
def wikibookRow (st : Store) (page : Page) (d : Details) (withUri : Bool) : BookRow :=
  let sourceId := generateWikibookSourceId page.title
  let bookUri := generateBookUri "wikibooks" sourceId
  { book_uri := if withUri then some bookUri else none
    source := "wikibooks"
    source_id := sourceId
    gutenberg_id := none
    title := page.title
    author := "Wikibooks Contributors"
    dewey_decimal := getDeweyDecimal page.title d.extract
    language := "en"
    subject := none
    publisher := "Wikibooks"
    publication_date := none
    description :=
      if d.extract ≠ "" then
        d.extract.take 500 ++ (if 500 < d.extract.length then "..." else "")
      else "A collaborative textbook from Wikibooks. " ++ d.fullurl
    cover_url := none
    faculty_id := matchFacultyToBook st page.title d.extract none }

/-- The observable outcome of one `insertWikibook` call.  The script
itself returns `null` in every case but `inserted` (see `jsResultOf`);
the constructors record which path produced that `null`. -/
inductive InsertOutcome where
  | noDetails
  | alreadyExists
  | dupAtInsert
  | insertError (msg : String)
  | inserted (row : BookRow)
deriving DecidableEq, Repr

/-- The value `insertWikibook` actually returns to its caller. -/
def jsResultOf : InsertOutcome → Option BookRow
  | InsertOutcome.inserted r => some r
  | _ => none

/-- `InsertOutcome.inserted` recogniser. -/
def InsertOutcome.isInserted : InsertOutcome → Bool
  | InsertOutcome.inserted _ => true
  | _ => false

/-- The two-step existence check of `insertWikibook`: lookup by
`book_uri`, falling back to `(source, source_id)` on a miss. -/
def findExisting (st : Store) (bookUri source sourceId : String) : Option BookRow :=
  match findByUri st bookUri with
  | some r => some r
  | none => findBySourceId st source sourceId

/-- `insertWikibook` of `populate-wikibooks.js`.  The existence check
(`book_uri`, then `(source, source_id)`) runs against `st.rows`; the
insert attempts run against `st.rows ++ concurrent`, where `concurrent`
models rows committed by a racing writer between the check and the
insert (`[]` for a quiescent store).  Returns the outcome and the rows
visible afterwards. -/
def insertWikibookWith (st : Store) (concurrent : List BookRow)
    (page : Page) (details : Option Details) : InsertOutcome × List BookRow :=
  let visible := st.rows ++ concurrent
  match details with
  | none => (InsertOutcome.noDetails, visible)
  | some d =>
      let source := "wikibooks"
      let sourceId := generateWikibookSourceId page.title
      let bookUri := generateBookUri source sourceId
      match findExisting st bookUri source sourceId with
      | some _ => (InsertOutcome.alreadyExists, visible)
      | none =>
          let bookData := wikibookRow st page d false
          let bookDataWithUri := wikibookRow st page d true
          let firstTry := attemptInsert visible st.insertFault st.hasBookUriCol bookDataWithUri
          let final :=
            match firstTry with
            | Except.error msg =>
                if Js.includes msg "book_uri" then
                  attemptInsert visible st.insertFault st.hasBookUriCol bookData
                else firstTry
            | Except.ok _ => firstTry
          match final with
          | Except.ok (visible2, row) => (InsertOutcome.inserted row, visible2)
          | Except.error msg =>
              if Js.includes msg "duplicate" || Js.includes msg "unique" then
                (InsertOutcome.dupAtInsert, visible)
              else (InsertOutcome.insertError msg, visible)

/-- `insertWikibook` with no concurrent writer, returning the updated
store. -/
def runInsertWikibook (st : Store) (page : Page) (details : Option Details) :
    InsertOutcome × Store :=
  let r := insertWikibookWith st [] page details
  (r.1, { st with rows := r.2 })

/-- The summary counters of `populateWikibooks`. -/
structure Counters where
  inserted : Nat
  skipped : Nat
  errors : Nat
  linkedToFaculty : Nat
deriving DecidableEq, Repr

/-- All-zero counters. -/
def Counters.init : Counters := ⟨0, 0, 0, 0⟩

/-- Outcome of `fetchWikibookDetails` for one page: details, a missing
page (`null`), or a thrown fetch error. -/
inductive FetchResult where
  | ok (d : Details)
  | missing
  | failed (msg : String)
deriving DecidableEq, Repr

/-- The per-item body of the `populateWikibooks` batch loop: a thrown
fetch failure is caught and counted as an error; missing details are
skipped; otherwise the item is counted from `insertWikibook`'s returned
value (`null` counts as skipped, whatever produced it). -/
def processPage (st : Store) (page : Page) (fr : FetchResult) (c : Counters) :
    Counters × Store :=
  match fr with
  | FetchResult.failed _ => ({ c with errors := c.errors + 1 }, st)
  | FetchResult.missing => ({ c with skipped := c.skipped + 1 }, st)
  | FetchResult.ok d =>
      let r := runInsertWikibook st page (some d)
      match jsResultOf r.1 with
      | some row =>
          ({ c with inserted := c.inserted + 1,
                    linkedToFaculty :=
                      if row.faculty_id.isSome then c.linkedToFaculty + 1
                      else c.linkedToFaculty }, r.2)
      | none => ({ c with skipped := c.skipped + 1 }, r.2)

end PopulateWikibooks

namespace PopulateBooks

/-- A parsed catalog row of the Gutenberg populate script: a JavaScript
object keyed by header names, modelled as an association list in which a
later assignment to an existing key overwrites it. -/
abbrev Book := List (String × String)

/-- JavaScript property write `book[k] = v`. -/
def jsSet (b : Book) (k v : String) : Book :=
  if b.any (fun p => decide (p.1 = k)) then
    b.map (fun p => if p.1 = k then (k, v) else p)
  else b ++ [(k, v)]

/-- JavaScript property read `book[k]` (`none` models `undefined`). -/
def jsGet (b : Book) (k : String) : Option String :=
  (b.find? (fun p => decide (p.1 = k))).map (fun p => p.2)

/-- JavaScript `book[k] || dflt`. -/
def jsGetD (b : Book) (k dflt : String) : String :=
  match jsGet b k with
  | some s => if s = "" then dflt else s
  | none => dflt

/-- The double-quote character. -/
def qChar : Char := Char.ofNat 34

/-- JavaScript `.replace(/^"|"$/g, '')`: strip one leading and one
trailing double quote. -/
def stripQuotes (s : String) : String :=
  let l := s.data
  let l1 := match l with
    | c :: t => if c = qChar then t else l
    | [] => []
  let l2 := match l1.reverse with
    | c :: t => if c = qChar then t.reverse else l1
    | [] => l1
  String.mk l2

/-- Field cleanup applied by `parseCSV` to every pushed value:
`current.trim().replace(/^"|"$/g, '')`. -/
def cleanField (s : String) : String := stripQuotes (Js.trim s)

/-- One step of the quote-aware field scanner of `parseCSV`; the state is
`(values, current, inQuotes)`. -/
def csvStep (delimiter : Char) (st : List String × String × Bool) (c : Char) :
    List String × String × Bool :=
  let values := st.1
  let current := st.2.1
  let inQuotes := st.2.2
  if c = qChar then (values, current, !inQuotes)
  else if (c = delimiter ∨ c = Char.ofNat 10) ∧ inQuotes = false then
    (values ++ [cleanField current], "", inQuotes)
  else (values, current.push c, inQuotes)

/-- The per-line field scanner of `parseCSV`; a non-empty trailing
`current` is pushed after the loop. -/
def parseLine (delimiter : Char) (line : String) : List String :=
  let st := line.data.foldl (csvStep delimiter) ([], "", false)
  if st.2.1 ≠ "" then st.1 ++ [cleanField st.2.1] else st.1

/-- The identifier-column predicate of `parseCSV`'s `findIndex`. -/
def textColPred (h : String) : Bool :=
  Js.includes (Js.toLowerS h) "text" || decide (Js.toLowerS h = "id") ||
    decide (h = "Text#")

/-- `headers.forEach((header, index) => book[header] = values[index] || '')`. -/
def buildBook (headers values : List String) : Book :=
  headers.enum.foldl (fun b iv => jsSet b iv.2 (values.getD iv.1 "")) []

/-- First truthy value of a JavaScript `||` chain of lookups. -/
def firstTruthy (l : List (Option String)) : Option String :=
  (l.filterMap (fun o =>
    match o with
    | some s => if s = "" then none else some s
    | none => none)).head?

/-- The identifier-resolution chain of `parseCSV`:
`book[headers[textCol]] || book['Text#'] || book['text#'] || book['ID'] || book['id']`. -/
def resolveTextId (book : Book) (headers : List String) (textCol : Nat) :
    Option String :=
  firstTruthy [jsGet book (headers.getD textCol ""), jsGet book "Text#",
               jsGet book "text#", jsGet book "ID", jsGet book "id"]

/-- The per-data-row body of the `parseCSV` loop: skip blank rows, scan
the fields, build the row object, resolve its identifier, and keep the
row only when the identifier parses as an integer (storing it under
`Text#`). -/
def parseRow (headers : List String) (textCol : Nat) (delimiter : Char)
    (books : List Book) (line : String) : List Book :=
  if Js.trim line = "" then books
  else
    let values := parseLine delimiter line
    let book := buildBook headers values
    match resolveTextId book headers textCol with
    | some textId =>
        if (Js.parseInt textId).isSome then books ++ [jsSet book "Text#" textId]
        else books
    | none => books

/-- `parseCSV` of the Gutenberg populate script (the delimiter-detecting,
quote-aware version): split the payload on newlines, drop blank lines,
detect the delimiter from the header line, scan each data row, and keep
only rows whose resolved identifier parses as an integer. -/
def parseCSV (csvText : String) : List Book :=
  let lines := (Js.splitChar csvText (Char.ofNat 10)).filter
    (fun line => decide (Js.trim line ≠ ""))
  match lines with
  | [] => []
  | l0 :: rest =>
      if rest.isEmpty then []
      else
        let delimiter := if Js.includes l0 "\t" then Char.ofNat 9 else Char.ofNat 44
        let headers := (Js.splitChar l0 delimiter).map (fun h => stripQuotes (Js.trim h))
        match headers.findIdx? textColPred with
        | none => []
        | some textCol => rest.foldl (parseRow headers textCol delimiter) []

/-- `DEWEY_MAP` of the Gutenberg populate script, in source order. -/
def DEWEY_MAP : List (String × String) :=
  [("Fiction", "800"), ("Literature", "800"), ("Poetry", "800"),
   ("Drama", "800"), ("History", "900"), ("Biography", "920"),
   ("Philosophy", "100"), ("Religion", "200"), ("Social Sciences", "300"),
   ("Language", "400"), ("Science", "500"), ("Technology", "600"),
   ("Arts", "700"), ("Geography", "910"), ("Travel", "910")]

/-- `getDeweyDecimal` of the Gutenberg populate script: each lowercased
keyword is checked against the lowercased `Subject` field and the
lowercased `Title` field separately; first match wins, default `"800"`. -/
def getDeweyDecimal (book : Book) : String :=
  let subject := Js.toLowerS (jsGetD book "Subject" "")
  let title := Js.toLowerS (jsGetD book "Title" "")
  match DEWEY_MAP.find? (fun kd =>
    Js.includes subject (Js.toLowerS kd.1) || Js.includes title (Js.toLowerS kd.1)) with
  | some kd => kd.2
  | none => "800"

end PopulateBooks

namespace ImproveDewey

/-- The response-body shapes `classifyBookWithLLM` distinguishes after a
successful JSON parse: an optional structured error and the four content
locations it probes (OpenAI, Hugging Face, Ollama, generic). -/
structure ApiJson where
  error : Option String
  choicesContent : Option String
  generatedText : Option String
  messageContent : Option String
  content : Option String
deriving DecidableEq, Repr

/-- A completed HTTP exchange as `classifyBookWithLLM` observes it: a
transport error, a body that fails `JSON.parse`, or parsed JSON. -/
inductive ApiResponse where
  | transportError (msg : String)
  | badJson (raw : String)
  | json (j : ApiJson)
deriving DecidableEq, Repr

/-- The rejection reasons of `classifyBookWithLLM`. -/
inductive RejectReason where
  | transport (msg : String)
  | parseError (raw : String)
  | apiError (msg : String)
  | noContent
  | noDeweyToken (content : String)
  | invalidDewey (code : String)
deriving DecidableEq, Repr

/-- JavaScript `\w`: ASCII letters, digits and underscore. -/
def isWordChar (c : Char) : Bool :=
  decide ((65 ≤ c.toNat ∧ c.toNat ≤ 90) ∨ (97 ≤ c.toNat ∧ c.toNat ≤ 122) ∨
          (48 ≤ c.toNat ∧ c.toNat ≤ 57) ∨ c.toNat = 95)

/-- A word boundary holds before the current position when there is no
preceding character or it is not a word character. -/
def boundaryBefore : Option Char → Bool
  | none => true
  | some p => !isWordChar p

/-- A word boundary holds after the token when the remainder is empty or
starts with a non-word character. -/
def boundaryAfter : List Char → Bool
  | [] => true
  | c :: _ => !isWordChar c

/-- First match of `/\b(\d{3})\b/`: scan left to right for three digits
delimited by word boundaries; `prev` is the character before the current
position. -/
def findThreeDigit (prev : Option Char) : List Char → Option String
  | c1 :: c2 :: c3 :: rest =>
      if boundaryBefore prev &&
          (Js.isDigitChar c1 && Js.isDigitChar c2 && Js.isDigitChar c3) &&
          boundaryAfter rest then
        some (String.mk [c1, c2, c3])
      else findThreeDigit (some c1) (c2 :: c3 :: rest)
  | _ => none

/-- `content.match(/\b(\d{3})\b/)`, yielding the captured token. -/
def extractThreeDigit (s : String) : Option String :=
  findThreeDigit none s.data

/-- JavaScript truthiness filter on an optional string property. -/
def truthy (o : Option String) : Option String :=
  match o with
  | some s => if s = "" then none else some s
  | none => none

/-- The content-resolution chain of `classifyBookWithLLM`: the first
truthy of the four probed locations (a truthy but whitespace-only field
is still selected, and only then trimmed). -/
def resolveContent (j : ApiJson) : Option String :=
  truthy j.choicesContent <|> truthy j.generatedText <|>
    truthy j.messageContent <|> truthy j.content

/-- The range validation `parseInt(dewey) >= 0 && parseInt(dewey) <= 999`
(`NaN` comparisons are false). -/
def deweyGuard (d : String) : Bool :=
  match Js.parseInt d with
  | some v => decide (0 ≤ v) && decide (v ≤ 999)
  | none => false

/-- The response-validation path of `classifyBookWithLLM`, from the
completed HTTP exchange to the resolved Dewey code or rejection. -/
def classifyResponse : ApiResponse → Except RejectReason String
  | ApiResponse.transportError m => Except.error (RejectReason.transport m)
  | ApiResponse.badJson raw => Except.error (RejectReason.parseError raw)
  | ApiResponse.json j =>
      match j.error with
      | some m => Except.error (RejectReason.apiError m)
      | none =>
          match resolveContent j with
          | none => Except.error RejectReason.noContent
          | some c0 =>
              let content := Js.trim c0
              if content = "" then Except.error RejectReason.noContent
              else
                match extractThreeDigit content with
                | none => Except.error (RejectReason.noDeweyToken content)
                | some dewey =>
                    if deweyGuard dewey then Except.ok dewey
                    else Except.error (RejectReason.invalidDewey dewey)

/-- Recogniser for the `Invalid Dewey code` rejection branch. -/
def isInvalidReject : Except RejectReason String → Bool
  | Except.error (RejectReason.invalidDewey _) => true
  | _ => false

end ImproveDewey

namespace PopulateWikibooks

/-- A stored row carries the identity `(uri, source, sourceId)` when its
`book_uri` equals the uri or its `(source, source_id)` pair matches; this
is exactly what either branch of the existence check can find and what
either uniqueness constraint protects. -/
def matchesIdentity (r : BookRow) (uri source sourceId : String) : Prop :=
  r.book_uri = some uri ∨ (r.source = source ∧ r.source_id = sourceId)

instance (r : BookRow) (uri source sourceId : String) :
    Decidable (matchesIdentity r uri source sourceId) := by
  unfold matchesIdentity; infer_instance

/-- The maximum score over a faculty list (0 for the empty list), as the
claim about `matchFacultyToBook` describes it. -/
def maxScore (text titleLower : String) (l : List Faculty) : Nat :=
  l.foldr (fun m acc => max (facultyScore text titleLower m) acc) 0

end PopulateWikibooks

/-- Modelled from the claim wording for the default classifier, Wikibooks
variant: lowercase the combined `title ++ " " ++ description`, iterate the
static keyword table in entry order, return the code of the first keyword
occurring as a substring, defaulting to `"000"`. -/
def deweyCombinedWikibooks (title extract : String) : String :=
  let text := Js.toLowerS (title ++ " " ++ extract)
  match PopulateWikibooks.DEWEY_MAP.find?
      (fun kd => Js.includes text (Js.toLowerS kd.1)) with
  | some kd => kd.2
  | none => "000"

/-- Modelled from the claim wording for the default classifier, Gutenberg
variant: lowercase the combined `title ++ " " ++ subject`, iterate the
static keyword table in entry order, return the code of the first
(lowercased) keyword occurring as a substring, defaulting to `"800"`. -/
def deweyCombinedGutenberg (title subject : String) : String :=
  let text := Js.toLowerS (title ++ " " ++ subject)
  match PopulateBooks.DEWEY_MAP.find?
      (fun kd => Js.includes text (Js.toLowerS kd.1)) with
  | some kd => kd.2
  | none => "800"

/-- The per-field first-match classifier the Gutenberg code actually
implements: each lowercased keyword is tested against the lowercased
subject and the lowercased title separately (never across the field
boundary); first match wins, default `"800"`. -/
def deweySeparateGutenberg (title subject : String) : String :=
  match PopulateBooks.DEWEY_MAP.find? (fun kd =>
    Js.includes (Js.toLowerS subject) (Js.toLowerS kd.1) ||
      Js.includes (Js.toLowerS title) (Js.toLowerS kd.1)) with
  | some kd => kd.2
  | none => "800"

namespace PopulateWikibooks

/-- The stored row the duplicate-Wikibooks scenario of the spec posits:
uri `wikibooks://Python_Programming` (underscore form). -/
def pythonUnderscoreRow : BookRow :=
  { book_uri := some "wikibooks://Python_Programming"
    source := "wikibooks"
    source_id := "Python_Programming"
    gutenberg_id := none
    title := "Python Programming"
    author := "Wikibooks Contributors"
    dewey_decimal := "000"
    language := "en"
    subject := none
    publisher := "Wikibooks"
    publication_date := none
    description := "A collaborative textbook from Wikibooks."
    cover_url := none
    faculty_id := none }

/-- The stored row a first run of the code actually leaves behind:
uri `wikibooks://Python%20Programming` (percent-encoded form). -/
def pythonPercentRow : BookRow :=
  { pythonUnderscoreRow with
    book_uri := some "wikibooks://Python%20Programming"
    source_id := "Python%20Programming" }

/-- The raw page of the duplicate-Wikibooks scenario. -/
def pythonPage : Page := ⟨"Python Programming"⟩

/-- The fetched details of the duplicate-Wikibooks scenario. -/
def pythonDetails : Details :=
  ⟨"Python Programming", "", "https://en.wikibooks.org/wiki/Python%20Programming"⟩

/-- A store holding the underscore-uri row the spec scenario posits. -/
def storeUnderscore : Store := ⟨[pythonUnderscoreRow], true, none, [], false⟩

/-- A store holding the percent-encoded-uri row the code produces. -/
def storePercent : Store := ⟨[pythonPercentRow], true, none, [], false⟩

/-- A store whose insert path rejects every write with a message that is
neither a uniqueness violation nor a missing-column signal. -/
def faultStore : Store :=
  ⟨[], true, some "permission denied for table books", [], false⟩

end PopulateWikibooks

section HelperLemmas

/-- `find?` only depends on the predicate's values on the list. -/
theorem find?_congr_mem {α : Type} {p q : α → Bool} :
    ∀ (l : List α), (∀ a ∈ l, p a = q a) → l.find? p = l.find? q := by
  intro l
  induction l with
  | nil => intro _; rfl
  | cons a t ih =>
      intro h
      have ha := h a (List.mem_cons_self a t)
      by_cases hp : p a = true
      · rw [List.find?_cons_of_pos t hp, List.find?_cons_of_pos t (ha ▸ hp)]
      · have hq : ¬ q a = true := fun hq => hp (ha ▸ hq)
        rw [List.find?_cons_of_neg t hp, List.find?_cons_of_neg t hq]
        exact ih (fun x hx => h x (List.mem_cons_of_mem a hx))

/-- A first-match table lookup yields a code of the table or the default. -/
theorem firstMatch_mem (table : List (String × String))
    (p : String × String → Bool) (dflt : String) :
    (match table.find? p with | some kd => kd.2 | none => dflt) ∈
      dflt :: table.map Prod.snd := by
  cases h : table.find? p with
  | none => exact List.mem_cons_self _ _
  | some kd =>
      exact List.mem_cons_of_mem _
        (List.mem_map_of_mem Prod.snd (List.mem_of_find?_eq_some h))

end HelperLemmas

open PopulateWikibooks in
/-- C7: `isLikelyBook` is a pure total function on title strings; it
returns `false` exactly when the lowercased title contains one of the
eleven fixed administrative markers or the title is shorter than 3
characters, and `true` otherwise. -/
theorem isLikelyBook_spec (t : String) :
    isLikelyBook t = false ↔
      ((∃ p ∈ skipPatterns, Js.includes (Js.toLowerS t) p = true) ∨ t.length < 3) := by
  unfold isLikelyBook
  by_cases h1 : (skipPatterns.any fun pattern => Js.includes (Js.toLowerS t) pattern) = true
  · rw [if_pos h1]
    constructor
    · intro _
      rcases List.any_eq_true.mp h1 with ⟨p, hp, hinc⟩
      exact Or.inl ⟨p, hp, hinc⟩
    · intro _
      rfl
  · rw [if_neg h1]
    by_cases h2 : t.length < 3
    · rw [if_pos h2]
      exact ⟨fun _ => Or.inr h2, fun _ => rfl⟩
    · rw [if_neg h2]
      constructor
      · intro h
        exact absurd h (by simp)
      · intro h
        rcases h with ⟨p, hp, hinc⟩ | hlen
        · exact absurd (List.any_eq_true.mpr ⟨p, hp, hinc⟩) h1
        · exact absurd hlen h2

open PopulateWikibooks PopulateBooks in
/-- C3 counterexample: the Gutenberg classifier does not classify the
lowercased combined text; on `Title = "social"`, `Subject = "sciences"`
the combined-text classifier the claim describes returns `"300"`
(keyword `Social Sciences` spans the two fields) while the code, which
tests each keyword against the two fields separately, returns `"500"`
(keyword `Science` inside `sciences`). -/
theorem getDeweyDecimal_combined_counterexample :
    PopulateBooks.getDeweyDecimal [("Title", "social"), ("Subject", "sciences")] = "500" ∧
    deweyCombinedGutenberg "social" "sciences" = "300" ∧
    PopulateBooks.getDeweyDecimal [("Title", "social"), ("Subject", "sciences")] ≠
      deweyCombinedGutenberg "social" "sciences" := by
  decide

open PopulateWikibooks PopulateBooks in
/-- C3 (amended): the default classifier is deterministic (a pure
function) and first-match-wins over its static table.  The Wikibooks
variant classifies the lowercased combined `title ++ " " ++ extract` and
defaults to `"000"`; the Gutenberg variant tests each lowercased keyword
against the lowercased `Subject` and `Title` fields separately (a keyword
spanning the field boundary does not match) and defaults to `"800"`; in
both variants the returned code is a code of the respective table or the
default. -/
theorem getDeweyDecimal_amended :
    (∀ t e, PopulateWikibooks.getDeweyDecimal t e = deweyCombinedWikibooks t e) ∧
    (∀ t e, PopulateWikibooks.getDeweyDecimal t e ∈
      "000" :: PopulateWikibooks.DEWEY_MAP.map Prod.snd) ∧
    (∀ b, PopulateBooks.getDeweyDecimal b ∈
      "800" :: PopulateBooks.DEWEY_MAP.map Prod.snd) ∧
    (∀ b, PopulateBooks.getDeweyDecimal b =
      deweySeparateGutenberg (jsGetD b "Title" "") (jsGetD b "Subject" "")) := by
  refine ⟨?_, ?_, ?_, ?_⟩
  · intro t e
    have hall : ∀ kd ∈ PopulateWikibooks.DEWEY_MAP, Js.toLowerS kd.1 = kd.1 := by
      decide
    have hcong : ∀ text : String,
        PopulateWikibooks.DEWEY_MAP.find? (fun kd => Js.includes text kd.1) =
        PopulateWikibooks.DEWEY_MAP.find?
          (fun kd => Js.includes text (Js.toLowerS kd.1)) := by
      intro text
      apply find?_congr_mem
      intro kd hkd
      rw [hall kd hkd]
    simp only [PopulateWikibooks.getDeweyDecimal, deweyCombinedWikibooks, hcong]
  · intro t e
    unfold PopulateWikibooks.getDeweyDecimal
    exact firstMatch_mem _ _ _
  · intro b
    unfold PopulateBooks.getDeweyDecimal
    exact firstMatch_mem _ _ _
  · intro b
    rfl

open PopulateWikibooks in
/-- C4 counterexample: the code resolves title `"Python Programming"` to
uri `wikibooks://Python%20Programming` (`encodeURIComponent` encodes the
space as `%20`, not an underscore).  Against a store already holding the
record under the spec's posited uri `wikibooks://Python_Programming`
(with source id `Python_Programming`), the second run's existence check
therefore misses, the item is inserted, and the store grows to two rows -
not skipped with zero new rows. -/
theorem duplicate_scenario_counterexample :
    generateBookUri "wikibooks" (generateWikibookSourceId "Python Programming") ≠
      "wikibooks://Python_Programming" ∧
    (runInsertWikibook storeUnderscore pythonPage (some pythonDetails)).1.isInserted = true ∧
    (runInsertWikibook storeUnderscore pythonPage (some pythonDetails)).2.rows.length = 2 := by
  decide

open PopulateWikibooks in
/-- C4 (amended): for the raw record with title `"Python Programming"`,
when the record is already stored under the uri the code derives,
`wikibooks://Python%20Programming`, a second ingestion run resolves the
record to that identity, the existence check succeeds, the item is
reported as skipped, and zero new rows are inserted. -/
theorem duplicate_scenario_amended :
    generateBookUri "wikibooks" (generateWikibookSourceId "Python Programming") =
      "wikibooks://Python%20Programming" ∧
    (runInsertWikibook storePercent pythonPage (some pythonDetails)).1 =
      InsertOutcome.alreadyExists ∧
    (runInsertWikibook storePercent pythonPage (some pythonDetails)).2.rows.length = 1 ∧
    (processPage storePercent pythonPage (FetchResult.ok pythonDetails) Counters.init).1 =
      ⟨0, 1, 0, 0⟩ := by
  decide

open PopulateWikibooks in
/-- C9: the curator matcher's store query carries `limit 100`, so the
result depends only on the first 100 faculty rows; when the query errors
or returns no rows the matcher returns `none` instead of raising, so
books are silently left unlinked in those cases. -/
theorem matchFaculty_limit_and_fallback :
    (∀ rows hasCol fault fac t e s,
      matchFacultyToBook ⟨rows, hasCol, fault, fac, true⟩ t e s = none) ∧
    (∀ rows hasCol fault err t e s,
      matchFacultyToBook ⟨rows, hasCol, fault, [], err⟩ t e s = none) ∧
    (∀ st t e s, matchFacultyToBook st t e s =
      matchFacultyToBook { st with faculty := st.faculty.take 100 } t e s) := by
  refine ⟨?_, ?_, ?_⟩
  · intro rows hasCol fault fac t e s
    simp [matchFacultyToBook]
  · intro rows hasCol fault err t e s
    simp [matchFacultyToBook]
  · intro st t e s
    unfold matchFacultyToBook
    rw [List.take_take, min_self]


section MatchLoopLemmas

open PopulateWikibooks

/-- The score component of the best-match fold is the running maximum of
the accumulator and all member scores. -/
theorem matchLoop_snd (text tl : String) (l : List Faculty) (b : Option Nat) (s : Nat) :
    (matchLoop text tl l (b, s)).2 = max s (maxScore text tl l) := by
  induction l generalizing b s with
  | nil => simp [matchLoop, maxScore]
  | cons m rest ih =>
      have hMcons : maxScore text tl (m :: rest) =
          max (facultyScore text tl m) (maxScore text tl rest) := rfl
      simp only [matchLoop, hMcons]
      by_cases hc : s < facultyScore text tl m
      · rw [if_pos hc, ih]
        omega
      · rw [if_neg hc, ih]
        omega

/-- The match component of the best-match fold: if no member beats the
accumulator score, the accumulator survives; otherwise the first member
attaining the overall maximum wins. -/
theorem matchLoop_fst (text tl : String) (l : List Faculty) (b : Option Nat) (s : Nat) :
    (matchLoop text tl l (b, s)).1 =
      if maxScore text tl l ≤ s then b
      else (l.find? (fun x => decide (maxScore text tl l ≤ facultyScore text tl x))).map
        Faculty.id := by
  induction l generalizing b s with
  | nil => simp [matchLoop, maxScore]
  | cons m rest ih =>
      have hMcons : maxScore text tl (m :: rest) =
          max (facultyScore text tl m) (maxScore text tl rest) := rfl
      simp only [matchLoop, hMcons]
      by_cases hc : s < facultyScore text tl m
      · rw [if_pos hc, ih]
        by_cases hMA : maxScore text tl rest ≤ facultyScore text tl m
        · have h1 : max (facultyScore text tl m) (maxScore text tl rest) =
              facultyScore text tl m := by omega
          simp only [h1]
          rw [if_pos hMA, if_neg (by omega : ¬ facultyScore text tl m ≤ s)]
          rw [List.find?_cons_of_pos _ (by simp)]
          rfl
        · have h1 : max (facultyScore text tl m) (maxScore text tl rest) =
              maxScore text tl rest := by omega
          simp only [h1]
          rw [if_neg hMA, if_neg (by omega : ¬ maxScore text tl rest ≤ s)]
          rw [List.find?_cons_of_neg _ (by simp; omega)]
      · rw [if_neg hc, ih]
        by_cases hMs : maxScore text tl rest ≤ s
        · rw [if_pos hMs, if_pos (by omega : max (facultyScore text tl m) (maxScore text tl rest) ≤ s)]
        · rw [if_neg hMs, if_neg (by omega : ¬ max (facultyScore text tl m) (maxScore text tl rest) ≤ s)]
          have h1 : max (facultyScore text tl m) (maxScore text tl rest) =
              maxScore text tl rest := by omega
          simp only [h1]
          rw [List.find?_cons_of_neg _ (by simp; omega)]

/-- Every member's score is bounded by the list maximum. -/
theorem facultyScore_le_maxScore (text tl : String) {m : Faculty} :
    ∀ {l : List Faculty}, m ∈ l → facultyScore text tl m ≤ maxScore text tl l := by
  intro l
  induction l with
  | nil => intro h; cases h
  | cons a rest ih =>
      intro h
      have hMcons : maxScore text tl (a :: rest) =
          max (facultyScore text tl a) (maxScore text tl rest) := rfl
      rcases List.mem_cons.mp h with rfl | hmem
      · rw [hMcons]; omega
      · have := ih hmem
        rw [hMcons]; omega

end MatchLoopLemmas

open PopulateWikibooks in
/-- C2: the curator matcher scores each curator by the weighted heuristic
(`facultyScore`: +10 department substring, +5 per shared subject keyword,
+2 per long name token, +3 department head token in title); it returns
`none` when the maximum score is below 5, and otherwise the id of the
first curator in enumeration order attaining the maximum (a later curator
with an equal score never overwrites the match). -/
theorem matchFacultyToBook_scoring_spec (faculty : List Faculty)
    (title extract : String) (subject : Option String) :
    matchFacultyCore faculty title extract subject =
      (if maxScore (facultyText title extract subject) (Js.toLowerS title) faculty < 5
       then none
       else (faculty.find? (fun m =>
          decide (facultyScore (facultyText title extract subject) (Js.toLowerS title) m =
            maxScore (facultyText title extract subject) (Js.toLowerS title) faculty))).map
          Faculty.id) := by
  simp only [matchFacultyCore]
  rw [matchLoop_snd, matchLoop_fst]
  simp only [Nat.zero_max]
  by_cases h5 : 5 ≤ maxScore (facultyText title extract subject) (Js.toLowerS title) faculty
  · rw [if_pos h5]
    rw [if_neg (by omega : ¬ maxScore (facultyText title extract subject) (Js.toLowerS title) faculty ≤ 0)]
    rw [if_neg (by omega : ¬ maxScore (facultyText title extract subject) (Js.toLowerS title) faculty < 5)]
    congr 1
    apply find?_congr_mem
    intro m hm
    have hb := facultyScore_le_maxScore (facultyText title extract subject) (Js.toLowerS title) hm
    exact decide_eq_decide.mpr (by omega)
  · rw [if_neg h5, if_pos (by omega)]

section DeweyTokenLemmas

open ImproveDewey

/-- Whatever `/\b(\d{3})\b/` captures is exactly three ASCII digits. -/
theorem findThreeDigit_digits :
    ∀ (l : List Char) (prev : Option Char) (d : String),
      findThreeDigit prev l = some d →
      ∃ c1 c2 c3, d.data = [c1, c2, c3] ∧ Js.isDigitChar c1 = true ∧
        Js.isDigitChar c2 = true ∧ Js.isDigitChar c3 = true := by
  intro l
  induction l with
  | nil =>
      intro prev d h
      simp [findThreeDigit] at h
  | cons c1 tl ih =>
      intro prev d h
      rcases tl with _ | ⟨c2, tl2⟩
      · simp [findThreeDigit] at h
      rcases tl2 with _ | ⟨c3, rest⟩
      · simp [findThreeDigit] at h
      have hstep : findThreeDigit prev (c1 :: c2 :: c3 :: rest) =
          (if boundaryBefore prev &&
              (Js.isDigitChar c1 && Js.isDigitChar c2 && Js.isDigitChar c3) &&
              boundaryAfter rest then
            some (String.mk [c1, c2, c3])
          else findThreeDigit (some c1) (c2 :: c3 :: rest)) := rfl
      rw [hstep] at h
      split at h
      · rename_i hcond
        simp only [Bool.and_eq_true] at hcond
        obtain ⟨⟨-, ⟨⟨h1, h2⟩, h3⟩⟩, -⟩ := hcond
        refine ⟨c1, c2, c3, ?_, h1, h2, h3⟩
        injection h with h
        subst h
        rfl
      · exact ih (some c1) d h

/-- A three-ASCII-digit string parses to an integer in `[0, 999]`. -/
theorem parseInt_three_digits (d : String) (c1 c2 c3 : Char)
    (hd : d.data = [c1, c2, c3]) (h1 : Js.isDigitChar c1 = true)
    (h2 : Js.isDigitChar c2 = true) (h3 : Js.isDigitChar c3 = true) :
    ∃ v : Int, Js.parseInt d = some v ∧ 0 ≤ v ∧ v ≤ 999 := by
  have b1 : 48 ≤ c1.toNat ∧ c1.toNat ≤ 57 := by simpa [Js.isDigitChar] using h1
  have b2 : 48 ≤ c2.toNat ∧ c2.toNat ≤ 57 := by simpa [Js.isDigitChar] using h2
  have b3 : 48 ≤ c3.toNat ∧ c3.toNat ≤ 57 := by simpa [Js.isDigitChar] using h3
  have hws : Js.wsChar c1 = false := by
    simp only [Js.wsChar, decide_eq_false_iff_not]
    omega
  have hpre : Js.hexMarker [c1, c2, c3] = false := by
    have : Js.hexMarker [c1, c2, c3] =
        (decide (c1.toNat = 48) && (decide (c2.toNat = 120) || decide (c2.toNat = 88))) := rfl
    rw [this]
    simp only [Bool.and_eq_false_iff, Bool.or_eq_false_iff, decide_eq_false_iff_not]
    omega
  have hds : [c1, c2, c3].takeWhile Js.isDigitChar = [c1, c2, c3] := by
    simp [List.takeWhile_cons, h1, h2, h3]
  have hpart : Js.parseIntNatPart [c1, c2, c3] = some (Js.decValue [c1, c2, c3]) := by
    simp only [Js.parseIntNatPart, hpre, Bool.false_eq_true, if_false, hds]
    rfl
  have hparse : Js.parseInt d = some ((Js.decValue [c1, c2, c3] : Nat) : Int) := by
    unfold Js.parseInt
    rw [hd, List.dropWhile_cons, hws]
    simp only [Bool.false_eq_true, if_false]
    show (if c1.toNat = 45 then (Js.parseIntNatPart [c2, c3]).map (fun n => -(n : Int))
          else if c1.toNat = 43 then (Js.parseIntNatPart [c2, c3]).map (fun n => (n : Int))
          else (Js.parseIntNatPart [c1, c2, c3]).map (fun n => (n : Int))) = _
    rw [if_neg (by omega : ¬ c1.toNat = 45), if_neg (by omega : ¬ c1.toNat = 43), hpart]
    rfl
  refine ⟨_, hparse, ?_, ?_⟩
  · exact Int.ofNat_nonneg _
  · have hval : Js.decValue [c1, c2, c3] =
        ((0 * 10 + Js.digitVal c1) * 10 + Js.digitVal c2) * 10 + Js.digitVal c3 := rfl
    have hv1 : Js.digitVal c1 ≤ 9 := by unfold Js.digitVal; omega
    have hv2 : Js.digitVal c2 ≤ 9 := by unfold Js.digitVal; omega
    have hv3 : Js.digitVal c3 ≤ 9 := by unfold Js.digitVal; omega
    have : Js.decValue [c1, c2, c3] ≤ 999 := by omega
    exact_mod_cast this

end DeweyTokenLemmas

open ImproveDewey in
/-- C10: every token matched by `/\b(\d{3})\b/` parses to an integer in
`[0, 999]`, so the `Invalid Dewey code` rejection branch of
`classifyBookWithLLM` is unreachable: the validation path rejects only
for a transport failure, an unparseable body, a structured API error, a
missing/empty content field, or the absence of a 3-digit token. -/
theorem classify_no_invalid_dewey (r : ApiResponse) :
    isInvalidReject (classifyResponse r) = false := by
  cases r with
  | transportError m => rfl
  | badJson raw => rfl
  | json j =>
      unfold classifyResponse
      cases herr : j.error with
      | some m => simp [herr, isInvalidReject]
      | none =>
          cases hc : resolveContent j with
          | none => simp [herr, hc, isInvalidReject]
          | some c0 =>
              simp only [herr, hc]
              by_cases htrim : Js.trim c0 = ""
              · simp [htrim, isInvalidReject]
              · rw [if_neg htrim]
                cases hx : extractThreeDigit (Js.trim c0) with
                | none => simp [isInvalidReject]
                | some dewey =>
                    have hx2 : findThreeDigit none (Js.trim c0).data = some dewey := hx
                    obtain ⟨c1, c2, c3, hd, h1, h2, h3⟩ :=
                      findThreeDigit_digits _ none dewey hx2
                    obtain ⟨v, hp, hv0, hv999⟩ :=
                      parseInt_three_digits dewey c1 c2 c3 hd h1 h2 h3
                    have hguard : deweyGuard dewey = true := by
                      unfold deweyGuard
                      rw [hp]
                      simp [hv0, hv999]
                    simp [hguard, isInvalidReject]

section StoreLemmas

open PopulateWikibooks

/-- Identity-clean stores miss the `book_uri` lookup. -/
theorem findByUri_none (st : Store) (uri source sourceId : String)
    (hclean : ∀ r ∈ st.rows, ¬ matchesIdentity r uri source sourceId) :
    findByUri st uri = none := by
  unfold findByUri
  split
  · apply List.find?_eq_none.mpr
    intro r hr
    simp only [decide_eq_true_eq]
    intro hEq
    exact hclean r hr (Or.inl hEq)
  · rfl

/-- Identity-clean stores miss the `(source, source_id)` lookup. -/
theorem findBySourceId_none (st : Store) (uri source sourceId : String)
    (hclean : ∀ r ∈ st.rows, ¬ matchesIdentity r uri source sourceId) :
    findBySourceId st source sourceId = none := by
  apply List.find?_eq_none.mpr
  intro r hr
  simp only [decide_eq_true_eq]
  intro hEq
  exact hclean r hr (Or.inr hEq)

/-- Identity-clean stores miss the whole two-step existence check. -/
theorem findExisting_none (st : Store) (uri source sourceId : String)
    (hclean : ∀ r ∈ st.rows, ¬ matchesIdentity r uri source sourceId) :
    findExisting st uri source sourceId = none := by
  unfold findExisting
  rw [findByUri_none st uri source sourceId hclean,
      findBySourceId_none st uri source sourceId hclean]

/-- A candidate row carrying a clean identity conflicts with no row of an
identity-clean row set. -/
theorem no_conflict (rows : List BookRow) (uri source sourceId : String)
    (row : BookRow)
    (hrowU : row.book_uri = none ∨ row.book_uri = some uri)
    (hrowS : row.source = source) (hrowI : row.source_id = sourceId)
    (hclean : ∀ r ∈ rows, ¬ matchesIdentity r uri source sourceId) :
    rows.any (conflictsWith row) = false := by
  rw [Bool.eq_false_iff]
  intro hany
  rcases List.any_eq_true.mp hany with ⟨r, hr, hconf⟩
  unfold conflictsWith at hconf
  rcases Bool.or_eq_true_iff.mp hconf with huri | hsid
  · rcases hrowU with hnone | hsome
    · rw [hnone] at huri
      cases hrb : r.book_uri <;> simp [hrb] at huri
    · rw [hsome] at huri
      cases hrb : r.book_uri with
      | none => simp [hrb] at huri
      | some v =>
          rw [hrb] at huri
          have hv : uri = v := by simpa using huri
          exact hclean r hr (Or.inl (by rw [hrb, ← hv]))
  · have hsid2 : r.source = row.source ∧ r.source_id = row.source_id := by
      simpa using hsid
    exact hclean r hr (Or.inr ⟨hrowS ▸ hsid2.1, hrowI ▸ hsid2.2⟩)

/-- A fault-free insert with no schema mismatch and no conflict appends
the row. -/
theorem attemptInsert_clean (rows : List BookRow) (hasCol : Bool) (row : BookRow)
    (hok : (row.book_uri.isSome && !hasCol) = false)
    (hnoconf : rows.any (conflictsWith row) = false) :
    attemptInsert rows none hasCol row = Except.ok (rows ++ [row], row) := by
  simp [attemptInsert, hok, hnoconf]

/-- A `book_uri`-bearing insert against a store lacking the column fails
with the missing-column message. -/
theorem attemptInsert_missing_col (rows : List BookRow) (row : BookRow)
    (hrow : row.book_uri.isSome = true) :
    attemptInsert rows none false row =
      Except.error "Could not find the book_uri column of books in the schema cache" := by
  simp [attemptInsert, hrow]

/-- A conflicting fault-free insert fails with the duplicate-key message. -/
theorem attemptInsert_conflict (rows : List BookRow) (hasCol : Bool) (row : BookRow)
    (hok : (row.book_uri.isSome && !hasCol) = false)
    (hconf : rows.any (conflictsWith row) = true) :
    attemptInsert rows none hasCol row =
      Except.error "duplicate key value violates unique constraint" := by
  simp [attemptInsert, hok, hconf]

/-- The `book_uri` column of the candidate row. -/
theorem wikibookRow_book_uri (st : Store) (page : Page) (d : Details) (w : Bool) :
    (wikibookRow st page d w).book_uri =
      if w then some (generateBookUri "wikibooks" (generateWikibookSourceId page.title))
      else none := rfl

/-- The `source` column of the candidate row. -/
theorem wikibookRow_source (st : Store) (page : Page) (d : Details) (w : Bool) :
    (wikibookRow st page d w).source = "wikibooks" := rfl

/-- The `source_id` column of the candidate row. -/
theorem wikibookRow_source_id (st : Store) (page : Page) (d : Details) (w : Bool) :
    (wikibookRow st page d w).source_id = generateWikibookSourceId page.title := rfl

/-- Against an identity-clean fault-free store, `insertWikibook` inserts
the candidate row: with `book_uri` when the column exists, and without it
(after the failed first attempt and the retry) when it does not. -/
theorem insertWikibookWith_clean (st : Store) (page : Page) (d : Details)
    (hclean : ∀ r ∈ st.rows, ¬ matchesIdentity r
      (generateBookUri "wikibooks" (generateWikibookSourceId page.title))
      "wikibooks" (generateWikibookSourceId page.title))
    (hfault : st.insertFault = none) :
    insertWikibookWith st [] page (some d) =
      (InsertOutcome.inserted (wikibookRow st page d st.hasBookUriCol),
       st.rows ++ [wikibookRow st page d st.hasBookUriCol]) := by
  have hnone := findExisting_none st
    (generateBookUri "wikibooks" (generateWikibookSourceId page.title))
    "wikibooks" (generateWikibookSourceId page.title) hclean
  simp only [insertWikibookWith, List.append_nil, hnone, hfault]
  cases hcol : st.hasBookUriCol with
  | true =>
      have hok : ((wikibookRow st page d true).book_uri.isSome && !true) = false := by
        simp
      have hnoconf := no_conflict st.rows
        (generateBookUri "wikibooks" (generateWikibookSourceId page.title))
        "wikibooks" (generateWikibookSourceId page.title)
        (wikibookRow st page d true)
        (Or.inr (by rw [wikibookRow_book_uri]; rfl))
        (wikibookRow_source st page d true) (wikibookRow_source_id st page d true)
        hclean
      simp only [attemptInsert_clean st.rows true (wikibookRow st page d true) hok hnoconf]
  | false =>
      have hmiss := attemptInsert_missing_col st.rows (wikibookRow st page d true)
        (by rw [wikibookRow_book_uri]; rfl)
      have hinc : Js.includes
          "Could not find the book_uri column of books in the schema cache"
          "book_uri" = true := by decide
      have hok : ((wikibookRow st page d false).book_uri.isSome && !false) = false := by
        rw [wikibookRow_book_uri]
        rfl
      have hnoconf := no_conflict st.rows
        (generateBookUri "wikibooks" (generateWikibookSourceId page.title))
        "wikibooks" (generateWikibookSourceId page.title)
        (wikibookRow st page d false)
        (Or.inl (by rw [wikibookRow_book_uri]; rfl))
        (wikibookRow_source st page d false) (wikibookRow_source_id st page d false)
        hclean
      have hretry := attemptInsert_clean st.rows false (wikibookRow st page d false)
        hok hnoconf
      simp only [hmiss, hinc, if_true, hretry]

/-- Against an identity-clean fault-free store, one run inserts the
candidate row and threads the grown store. -/
theorem runInsertWikibook_clean (st : Store) (page : Page) (d : Details)
    (hclean : ∀ r ∈ st.rows, ¬ matchesIdentity r
      (generateBookUri "wikibooks" (generateWikibookSourceId page.title))
      "wikibooks" (generateWikibookSourceId page.title))
    (hfault : st.insertFault = none) :
    runInsertWikibook st page (some d) =
      (InsertOutcome.inserted (wikibookRow st page d st.hasBookUriCol),
       { st with rows := st.rows ++ [wikibookRow st page d st.hasBookUriCol] }) := by
  simp only [runInsertWikibook, insertWikibookWith_clean st page d hclean hfault]

/-- When the existence check finds a record, `insertWikibook` returns the
already-exists outcome and leaves the store untouched. -/
theorem runInsertWikibook_exists (st : Store) (page : Page) (d : Details)
    (r : BookRow)
    (hfound : findExisting st
      (generateBookUri "wikibooks" (generateWikibookSourceId page.title))
      "wikibooks" (generateWikibookSourceId page.title) = some r) :
    runInsertWikibook st page (some d) = (InsertOutcome.alreadyExists, st) := by
  simp only [runInsertWikibook, insertWikibookWith, List.append_nil, hfound]

/-- After appending a row that carries the identity, the existence check
finds a record (by `book_uri` when the column exists, by the fallback
otherwise). -/
theorem findExisting_appended (rows : List BookRow) (hasCol : Bool)
    (fault : Option String) (fac : List Faculty) (err : Bool) (row : BookRow)
    (uri source sourceId : String)
    (hclean : ∀ r ∈ rows, ¬ matchesIdentity r uri source sourceId)
    (hru : hasCol = true → row.book_uri = some uri)
    (hrs : row.source = source) (hri : row.source_id = sourceId) :
    ∃ r, findExisting ⟨rows ++ [row], hasCol, fault, fac, err⟩ uri source sourceId =
      some r := by
  unfold findExisting findByUri findBySourceId
  cases hasCol with
  | true =>
      simp only [if_true]
      rw [List.find?_append]
      have h1 : rows.find? (fun r => decide (r.book_uri = some uri)) = none := by
        apply List.find?_eq_none.mpr
        intro r hr
        simp only [decide_eq_true_eq]
        intro hEq
        exact hclean r hr (Or.inl hEq)
      rw [h1]
      have h2 : [row].find? (fun r => decide (r.book_uri = some uri)) = some row := by
        rw [List.find?_cons_of_pos]
        simp [hru rfl]
      rw [h2]
      exact ⟨row, rfl⟩
  | false =>
      simp only [Bool.false_eq_true, if_false]
      rw [List.find?_append]
      have h1 : rows.find? (fun r => decide (r.source = source ∧ r.source_id = sourceId)) =
          none := by
        apply List.find?_eq_none.mpr
        intro r hr
        simp only [decide_eq_true_eq]
        intro hEq
        exact hclean r hr (Or.inr hEq)
      rw [h1]
      have h2 : [row].find? (fun r => decide (r.source = source ∧ r.source_id = sourceId)) =
          some row := by
        rw [List.find?_cons_of_pos]
        simp [hrs, hri]
      rw [h2]
      exact ⟨row, rfl⟩

end StoreLemmas

open PopulateWikibooks in
/-- C1: upsert idempotence.  For any raw Wikibooks record resolved to its
uri (`source + "://" + percent-encoded title`), running `insertWikibook`
twice against the same fault-free store that does not yet hold the
identity inserts once, makes the second run return the already-exists
outcome (`null`, counted as skipped) because the existence check by
`book_uri` with `(source, source_id)` fallback finds the record the first
run inserted, and leaves exactly one stored record with that identity. -/
theorem insertWikibook_idempotent (st : Store) (page : Page) (d : Details) (c : Counters)
    (hclean : ∀ r ∈ st.rows, ¬ matchesIdentity r
      (generateBookUri "wikibooks" (generateWikibookSourceId page.title))
      "wikibooks" (generateWikibookSourceId page.title))
    (hfault : st.insertFault = none) :
    (runInsertWikibook st page (some d)).1.isInserted = true ∧
    (runInsertWikibook (runInsertWikibook st page (some d)).2 page (some d)).1 =
      InsertOutcome.alreadyExists ∧
    (runInsertWikibook (runInsertWikibook st page (some d)).2 page (some d)).2.rows.countP
      (fun r => decide (matchesIdentity r
        (generateBookUri "wikibooks" (generateWikibookSourceId page.title))
        "wikibooks" (generateWikibookSourceId page.title))) = 1 ∧
    (processPage (runInsertWikibook st page (some d)).2 page (FetchResult.ok d) c).1.skipped =
      c.skipped + 1 := by
  have h1 := runInsertWikibook_clean st page d hclean hfault
  have hru : st.hasBookUriCol = true →
      (wikibookRow st page d st.hasBookUriCol).book_uri =
        some (generateBookUri "wikibooks" (generateWikibookSourceId page.title)) := by
    intro h
    rw [h, wikibookRow_book_uri]
    rfl
  obtain ⟨r, hr⟩ := findExisting_appended st.rows st.hasBookUriCol st.insertFault
    st.faculty st.facultyError (wikibookRow st page d st.hasBookUriCol)
    (generateBookUri "wikibooks" (generateWikibookSourceId page.title))
    "wikibooks" (generateWikibookSourceId page.title) hclean hru
    (wikibookRow_source st page d st.hasBookUriCol)
    (wikibookRow_source_id st page d st.hasBookUriCol)
  have h2run : runInsertWikibook
      { st with rows := st.rows ++ [wikibookRow st page d st.hasBookUriCol] } page (some d) =
      (InsertOutcome.alreadyExists,
       { st with rows := st.rows ++ [wikibookRow st page d st.hasBookUriCol] }) :=
    runInsertWikibook_exists _ page d r hr
  refine ⟨?_, ?_, ?_, ?_⟩
  · rw [h1]
    rfl
  · rw [h1]
    simp only [h2run]
  · rw [h1]
    simp only [h2run]
    rw [List.countP_append]
    have hz : st.rows.countP (fun r => decide (matchesIdentity r
        (generateBookUri "wikibooks" (generateWikibookSourceId page.title))
        "wikibooks" (generateWikibookSourceId page.title))) = 0 := by
      apply List.countP_eq_zero.mpr
      intro a ha
      simp only [decide_eq_true_eq]
      exact hclean a ha
    have hmatch : matchesIdentity (wikibookRow st page d st.hasBookUriCol)
        (generateBookUri "wikibooks" (generateWikibookSourceId page.title))
        "wikibooks" (generateWikibookSourceId page.title) :=
      Or.inr ⟨wikibookRow_source st page d st.hasBookUriCol,
        wikibookRow_source_id st page d st.hasBookUriCol⟩
    rw [hz]
    simp [hmatch]
  · rw [h1]
    simp only [processPage, h2run, jsResultOf]

open PopulateWikibooks in
/-- C1 witness: the idempotence theorem at a concrete empty store and the
record titled `Calculus`. -/
theorem insertWikibook_idempotent_witness :
    (runInsertWikibook ⟨[], true, none, [], false⟩ ⟨"Calculus"⟩
      (some ⟨"Calculus", "", "https://en.wikibooks.org/wiki/Calculus"⟩)).1.isInserted = true ∧
    (runInsertWikibook (runInsertWikibook ⟨[], true, none, [], false⟩ ⟨"Calculus"⟩
        (some ⟨"Calculus", "", "https://en.wikibooks.org/wiki/Calculus"⟩)).2 ⟨"Calculus"⟩
      (some ⟨"Calculus", "", "https://en.wikibooks.org/wiki/Calculus"⟩)).1 =
      InsertOutcome.alreadyExists ∧
    (runInsertWikibook (runInsertWikibook ⟨[], true, none, [], false⟩ ⟨"Calculus"⟩
        (some ⟨"Calculus", "", "https://en.wikibooks.org/wiki/Calculus"⟩)).2 ⟨"Calculus"⟩
      (some ⟨"Calculus", "", "https://en.wikibooks.org/wiki/Calculus"⟩)).2.rows.countP
      (fun r => decide (matchesIdentity r
        (generateBookUri "wikibooks" (generateWikibookSourceId (Page.title ⟨"Calculus"⟩)))
        "wikibooks" (generateWikibookSourceId (Page.title ⟨"Calculus"⟩)))) = 1 ∧
    (processPage (runInsertWikibook ⟨[], true, none, [], false⟩ ⟨"Calculus"⟩
        (some ⟨"Calculus", "", "https://en.wikibooks.org/wiki/Calculus"⟩)).2 ⟨"Calculus"⟩
      (FetchResult.ok ⟨"Calculus", "", "https://en.wikibooks.org/wiki/Calculus"⟩)
      ⟨0, 0, 0, 0⟩).1.skipped = (0 : Nat) + 1 :=
  insertWikibook_idempotent ⟨[], true, none, [], false⟩ ⟨"Calculus"⟩
    ⟨"Calculus", "", "https://en.wikibooks.org/wiki/Calculus"⟩ ⟨0, 0, 0, 0⟩
    (by decide) rfl

open PopulateWikibooks in
/-- C5: insert-path error tolerance.  When neither identity lookup finds
the record and the store is fault-free: the record is inserted in full,
`book_uri` included, when the column exists; when the store's error
message signals the `book_uri` column is absent, the insert is retried
once with the same record minus `book_uri`; and when the store reports a
duplicate/uniqueness violation at insert time (a racing writer), the
outcome is the skipped already-exists `null` result, not an error. -/
theorem insertWikibook_error_tolerance (st : Store) (page : Page) (d : Details)
    (concurrent : List BookRow)
    (hclean : ∀ r ∈ st.rows, ¬ matchesIdentity r
      (generateBookUri "wikibooks" (generateWikibookSourceId page.title))
      "wikibooks" (generateWikibookSourceId page.title)) :
    (st.insertFault = none → st.hasBookUriCol = true →
      insertWikibookWith st [] page (some d) =
        (InsertOutcome.inserted (wikibookRow st page d true),
         st.rows ++ [wikibookRow st page d true])) ∧
    (st.insertFault = none → st.hasBookUriCol = false →
      insertWikibookWith st [] page (some d) =
        (InsertOutcome.inserted (wikibookRow st page d false),
         st.rows ++ [wikibookRow st page d false])) ∧
    wikibookRow st page d false = { wikibookRow st page d true with book_uri := none } ∧
    (st.insertFault = none →
      (∃ r ∈ concurrent, r.source = "wikibooks" ∧
        r.source_id = generateWikibookSourceId page.title) →
      (insertWikibookWith st concurrent page (some d)).1 = InsertOutcome.dupAtInsert ∧
      jsResultOf (insertWikibookWith st concurrent page (some d)).1 = none ∧
      (insertWikibookWith st concurrent page (some d)).2 = st.rows ++ concurrent) := by
  refine ⟨?_, ?_, ?_, ?_⟩
  · intro hfault hcol
    have h := insertWikibookWith_clean st page d hclean hfault
    rw [hcol] at h
    exact h
  · intro hfault hcol
    have h := insertWikibookWith_clean st page d hclean hfault
    rw [hcol] at h
    exact h
  · rfl
  · intro hfault hdup
    have hnone := findExisting_none st
      (generateBookUri "wikibooks" (generateWikibookSourceId page.title))
      "wikibooks" (generateWikibookSourceId page.title) hclean
    have hconfX : ∀ w : Bool,
        (st.rows ++ concurrent).any (conflictsWith (wikibookRow st page d w)) = true := by
      intro w
      rcases hdup with ⟨r, hrmem, hrs, hri⟩
      apply List.any_eq_true.mpr
      refine ⟨r, List.mem_append_right _ hrmem, ?_⟩
      unfold conflictsWith
      apply Bool.or_eq_true_iff.mpr
      right
      simp [wikibookRow_source, wikibookRow_source_id, hrs, hri]
    have hd1 : Js.includes "duplicate key value violates unique constraint"
        "book_uri" = false := by decide
    have hd2 : Js.includes "duplicate key value violates unique constraint"
        "duplicate" = true := by decide
    have hgoal : insertWikibookWith st concurrent page (some d) =
        (InsertOutcome.dupAtInsert, st.rows ++ concurrent) := by
      simp only [insertWikibookWith, hnone]
      cases hcol : st.hasBookUriCol with
      | true =>
          have hokU : ((wikibookRow st page d true).book_uri.isSome && !true) = false := by
            simp
          have hfirst := attemptInsert_conflict (st.rows ++ concurrent) true
            (wikibookRow st page d true) hokU (hconfX true)
          rw [hfault]
          simp only [hfirst, hd1, Bool.false_eq_true, if_false, hd2, Bool.true_or]
          simp
      | false =>
          have hmiss := attemptInsert_missing_col (st.rows ++ concurrent)
            (wikibookRow st page d true) (by rw [wikibookRow_book_uri]; rfl)
          have hinc : Js.includes
              "Could not find the book_uri column of books in the schema cache"
              "book_uri" = true := by decide
          have hok0 : ((wikibookRow st page d false).book_uri.isSome && !false) = false := by
            rw [wikibookRow_book_uri]
            rfl
          have hretry := attemptInsert_conflict (st.rows ++ concurrent) false
            (wikibookRow st page d false) hok0 (hconfX false)
          rw [hfault]
          simp only [hmiss, hinc, if_true, hretry, hd1, Bool.false_eq_true, if_false,
            hd2, Bool.true_or]
    exact ⟨by rw [hgoal], by rw [hgoal]; rfl, by rw [hgoal]⟩

open PopulateWikibooks in
/-- C5 witness: the error-tolerance theorem at an empty store and a
concurrent writer that has just inserted the same Geometry record. -/
theorem insertWikibook_error_tolerance_witness :
    ((⟨[], true, none, [], false⟩ : Store).insertFault = none →
      (⟨[], true, none, [], false⟩ : Store).hasBookUriCol = true →
      insertWikibookWith ⟨[], true, none, [], false⟩ [] ⟨"Geometry"⟩
          (some ⟨"Geometry", "", "https://en.wikibooks.org/wiki/Geometry"⟩) =
        (InsertOutcome.inserted (wikibookRow ⟨[], true, none, [], false⟩ ⟨"Geometry"⟩
          ⟨"Geometry", "", "https://en.wikibooks.org/wiki/Geometry"⟩ true),
         ([] : List BookRow) ++ [wikibookRow ⟨[], true, none, [], false⟩ ⟨"Geometry"⟩
          ⟨"Geometry", "", "https://en.wikibooks.org/wiki/Geometry"⟩ true])) ∧
    ((⟨[], true, none, [], false⟩ : Store).insertFault = none →
      (⟨[], true, none, [], false⟩ : Store).hasBookUriCol = false →
      insertWikibookWith ⟨[], true, none, [], false⟩ [] ⟨"Geometry"⟩
          (some ⟨"Geometry", "", "https://en.wikibooks.org/wiki/Geometry"⟩) =
        (InsertOutcome.inserted (wikibookRow ⟨[], true, none, [], false⟩ ⟨"Geometry"⟩
          ⟨"Geometry", "", "https://en.wikibooks.org/wiki/Geometry"⟩ false),
         ([] : List BookRow) ++ [wikibookRow ⟨[], true, none, [], false⟩ ⟨"Geometry"⟩
          ⟨"Geometry", "", "https://en.wikibooks.org/wiki/Geometry"⟩ false])) ∧
    wikibookRow ⟨[], true, none, [], false⟩ ⟨"Geometry"⟩
        ⟨"Geometry", "", "https://en.wikibooks.org/wiki/Geometry"⟩ false =
      { wikibookRow ⟨[], true, none, [], false⟩ ⟨"Geometry"⟩
          ⟨"Geometry", "", "https://en.wikibooks.org/wiki/Geometry"⟩ true with
        book_uri := none } ∧
    ((⟨[], true, none, [], false⟩ : Store).insertFault = none →
      (∃ r ∈ [(⟨some "wikibooks://Geometry", "wikibooks", "Geometry", none, "Geometry",
          "Wikibooks Contributors", "500", "en", none, "Wikibooks", none, "x", none,
          none⟩ : BookRow)], r.source = "wikibooks" ∧
        r.source_id = generateWikibookSourceId (Page.title ⟨"Geometry"⟩)) →
      (insertWikibookWith ⟨[], true, none, [], false⟩
        [⟨some "wikibooks://Geometry", "wikibooks", "Geometry", none, "Geometry",
          "Wikibooks Contributors", "500", "en", none, "Wikibooks", none, "x", none,
          none⟩] ⟨"Geometry"⟩
        (some ⟨"Geometry", "", "https://en.wikibooks.org/wiki/Geometry"⟩)).1 =
        InsertOutcome.dupAtInsert ∧
      jsResultOf (insertWikibookWith ⟨[], true, none, [], false⟩
        [⟨some "wikibooks://Geometry", "wikibooks", "Geometry", none, "Geometry",
          "Wikibooks Contributors", "500", "en", none, "Wikibooks", none, "x", none,
          none⟩] ⟨"Geometry"⟩
        (some ⟨"Geometry", "", "https://en.wikibooks.org/wiki/Geometry"⟩)).1 = none ∧
      (insertWikibookWith ⟨[], true, none, [], false⟩
        [⟨some "wikibooks://Geometry", "wikibooks", "Geometry", none, "Geometry",
          "Wikibooks Contributors", "500", "en", none, "Wikibooks", none, "x", none,
          none⟩] ⟨"Geometry"⟩
        (some ⟨"Geometry", "", "https://en.wikibooks.org/wiki/Geometry"⟩)).2 =
        ([] : List BookRow) ++ [⟨some "wikibooks://Geometry", "wikibooks", "Geometry",
          none, "Geometry", "Wikibooks Contributors", "500", "en", none, "Wikibooks",
          none, "x", none, none⟩]) :=
  insertWikibook_error_tolerance ⟨[], true, none, [], false⟩ ⟨"Geometry"⟩
    ⟨"Geometry", "", "https://en.wikibooks.org/wiki/Geometry"⟩
    [⟨some "wikibooks://Geometry", "wikibooks", "Geometry", none, "Geometry",
      "Wikibooks Contributors", "500", "en", none, "Wikibooks", none, "x", none,
      none⟩] (by decide)

open PopulateWikibooks in
/-- C6 counterexample: when the store rejects the insert with
`permission denied for table books` (no uniqueness violation), the item
is NOT counted in the error counter: `insertWikibook` logs the message
and returns `null`, so the orchestrator counts the item as skipped
(`inserted = 0, skipped = 1, errors = 0`). -/
theorem summary_accounting_counterexample :
    (runInsertWikibook faultStore ⟨"Algebra"⟩
        (some ⟨"Algebra", "", "https://en.wikibooks.org/wiki/Algebra"⟩)).1 =
      InsertOutcome.insertError "permission denied for table books" ∧
    (processPage faultStore ⟨"Algebra"⟩
        (FetchResult.ok ⟨"Algebra", "", "https://en.wikibooks.org/wiki/Algebra"⟩)
        Counters.init).1 = ⟨0, 1, 0, 0⟩ := by
  decide

open PopulateWikibooks in
/-- C6 (amended): a store rejection of the insert for any reason (other
than those handled inside `insertWikibook`) yields a `null` item result,
which the orchestrator counts in the skipped counter, not the error
counter; the error counter counts only thrown per-item exceptions such as
detail-fetch failures, and missing details are also counted as skipped. -/
theorem summary_accounting_amended (st : Store) (page : Page) (d : Details)
    (c : Counters) (msg : String)
    (h : (runInsertWikibook st page (some d)).1 = InsertOutcome.insertError msg) :
    (processPage st page (FetchResult.ok d) c).1 = { c with skipped := c.skipped + 1 } ∧
    (∀ m, (processPage st page (FetchResult.failed m) c).1 =
      { c with errors := c.errors + 1 }) ∧
    (processPage st page FetchResult.missing c).1 =
      { c with skipped := c.skipped + 1 } := by
  refine ⟨?_, fun m => rfl, rfl⟩
  simp only [processPage, h, jsResultOf]

open PopulateWikibooks in
/-- C6 witness: the amended accounting theorem at the concrete faulting
store. -/
theorem summary_accounting_amended_witness :
    (processPage faultStore ⟨"Topology"⟩
        (FetchResult.ok ⟨"Topology", "", "https://en.wikibooks.org/wiki/Topology"⟩)
        ⟨2, 3, 4, 1⟩).1 = { (⟨2, 3, 4, 1⟩ : Counters) with skipped := 3 + 1 } ∧
    (∀ m, (processPage faultStore ⟨"Topology"⟩ (FetchResult.failed m) ⟨2, 3, 4, 1⟩).1 =
      { (⟨2, 3, 4, 1⟩ : Counters) with errors := 4 + 1 }) ∧
    (processPage faultStore ⟨"Topology"⟩ FetchResult.missing ⟨2, 3, 4, 1⟩).1 =
      { (⟨2, 3, 4, 1⟩ : Counters) with skipped := 3 + 1 } :=
  summary_accounting_amended faultStore ⟨"Topology"⟩
    ⟨"Topology", "", "https://en.wikibooks.org/wiki/Topology"⟩ ⟨2, 3, 4, 1⟩
    "permission denied for table books" (by decide)

section ParseCSVLemmas

open PopulateBooks

/-- Replacing the value at an existing key makes the key-first lookup
return the new value. -/
theorem find?_map_replace (b : Book) (k v : String)
    (hany : b.any (fun p => decide (p.1 = k)) = true) :
    (b.map (fun p => if p.1 = k then (k, v) else p)).find? (fun p => decide (p.1 = k)) =
      some (k, v) := by
  induction b with
  | nil => simp at hany
  | cons hd t ih =>
      by_cases hk : hd.1 = k
      · simp only [List.map_cons, if_pos hk]
        rw [List.find?_cons_of_pos _ (by simp)]
      · simp only [List.map_cons, if_neg hk]
        rw [List.find?_cons_of_neg _ (by simp [hk])]
        apply ih
        rcases List.any_eq_true.mp hany with ⟨x, hx, hpx⟩
        rcases List.mem_cons.mp hx with rfl | hxt
        · simp [hk] at hpx
        · exact List.any_eq_true.mpr ⟨x, hxt, hpx⟩

/-- Reading back a property just written returns the written value. -/
theorem jsGet_jsSet (b : Book) (k v : String) : jsGet (jsSet b k v) k = some v := by
  unfold jsSet jsGet
  by_cases hany : b.any (fun p => decide (p.1 = k)) = true
  · rw [if_pos hany, find?_map_replace b k v hany]
    rfl
  · rw [if_neg hany, List.find?_append]
    have h1 : b.find? (fun p => decide (p.1 = k)) = none := by
      apply List.find?_eq_none.mpr
      intro x hx hpx
      exact hany (List.any_eq_true.mpr ⟨x, hx, hpx⟩)
    rw [h1]
    simp

/-- Every row `parseRow` emits is either carried over or a freshly built
row whose stored `Text#` value parses as an integer. -/
theorem parseRow_mem (headers : List String) (textCol : Nat) (delimiter : Char)
    (books : List Book) (line : String) (b : Book)
    (hb : b ∈ parseRow headers textCol delimiter books line) :
    b ∈ books ∨ ∃ book tid, (Js.parseInt tid).isSome = true ∧ b = jsSet book "Text#" tid := by
  unfold parseRow at hb
  split at hb
  · exact Or.inl hb
  · dsimp only [] at hb
    split at hb
    · rename_i textId heq
      split at hb
      · rename_i hparse
        rcases List.mem_append.mp hb with hmem | hnew
        · exact Or.inl hmem
        · rcases List.mem_singleton.mp hnew with rfl
          exact Or.inr ⟨_, textId, hparse, rfl⟩
      · exact Or.inl hb
    · exact Or.inl hb

/-- Folding `parseRow` over the data rows preserves the parsed-identifier
invariant. -/
theorem foldl_parseRow_invariant (headers : List String) (textCol : Nat)
    (delimiter : Char) :
    ∀ (rows : List String) (acc : List Book),
      (∀ b ∈ acc, ∃ tid, jsGet b "Text#" = some tid ∧ (Js.parseInt tid).isSome = true) →
      ∀ b ∈ rows.foldl (parseRow headers textCol delimiter) acc,
        ∃ tid, jsGet b "Text#" = some tid ∧ (Js.parseInt tid).isSome = true := by
  intro rows
  induction rows with
  | nil =>
      intro acc hacc b hb
      exact hacc b (by simpa using hb)
  | cons line rest ih =>
      intro acc hacc b hb
      rw [List.foldl_cons] at hb
      refine ih (parseRow headers textCol delimiter acc line) ?_ b hb
      intro b2 hb2
      rcases parseRow_mem headers textCol delimiter acc line b2 hb2 with hmem | ⟨book, tid, hp, rfl⟩
      · exact hacc b2 hmem
      · exact ⟨tid, jsGet_jsSet book "Text#" tid, hp⟩

/-- Every book `parseCSV` returns stores a `Text#` identifier that parses
as an integer. -/
theorem parseCSV_ids (t : String) (b : Book) (hb : b ∈ parseCSV t) :
    ∃ tid, jsGet b "Text#" = some tid ∧ (Js.parseInt tid).isSome = true := by
  unfold parseCSV at hb
  dsimp only [] at hb
  split at hb
  · cases hb
  · split at hb
    · cases hb
    · split at hb
      · cases hb
      · exact foldl_parseRow_invariant _ _ _ _ [] (by intro x hx; cases hx) b hb

end ParseCSVLemmas

open PopulateBooks in
/-- C8 counterexample: quoted fields do not honour literal newlines.  On
a payload whose quoted Title field contains a newline, the claim's parse
would return the single row with Title `A\nB`; the code splits the text
on newlines before the quote-aware scan, so the row's Title is truncated
to `A` (and the remainder line is dropped for lack of an integer id). -/
theorem parseCSV_newline_counterexample :
    (parseCSV "Text#,Title\n1,\"A\nB\"").map (fun b => jsGetD b "Title" "") = ["A"] ∧
    (parseCSV "Text#,Title\n1,\"A\nB\"").map (fun b => jsGetD b "Title" "") ≠
      ["A" ++ "\n" ++ "B"] := by
  decide

open PopulateBooks in
/-- C8 (amended): `parseCSV` detects the delimiter as tab when the header
line contains a tab and comma otherwise, honours quoted fields containing
the delimiter (but not literal newlines, which break the row), and
silently drops every row whose resolved identifier does not parse as an
integer: every returned book stores a parseable `Text#`. -/
theorem parseCSV_spec (t : String) (b : Book) (hb : b ∈ parseCSV t) :
    (∃ tid, jsGet b "Text#" = some tid ∧ (Js.parseInt tid).isSome = true) ∧
    parseCSV "Text#\tTitle\n1\tHello, world" =
      [[("Text#", "1"), ("Title", "Hello, world")]] ∧
    parseCSV "Text#,Title\n1,\"a,b\"" = [[("Text#", "1"), ("Title", "a,b")]] :=
  ⟨parseCSV_ids t b hb, by decide, by decide⟩

open PopulateBooks in
/-- C8 witness: the parse specification at a concrete two-column payload. -/
theorem parseCSV_spec_witness :
    (∃ tid, jsGet [("Text#", "1"), ("Title", "x")] "Text#" = some tid ∧
      (Js.parseInt tid).isSome = true) ∧
    parseCSV "Text#\tTitle\n1\tHello, world" =
      [[("Text#", "1"), ("Title", "Hello, world")]] ∧
    parseCSV "Text#,Title\n1,\"a,b\"" = [[("Text#", "1"), ("Title", "a,b")]] :=
  parseCSV_spec "Text#,Title\n1,x" [("Text#", "1"), ("Title", "x")] (by decide)
